import Mathlib

/-!
Shallow embedding of the core logic of the InterviewAICoach repository:
the helper module `ai_helpers.py` (time-based cache decorator, response
parsing, feedback generation) and the difficulty-update step of the
"Submit Answer" handler in `app.py`.

Python values are modelled by the inductive `PyVal`; Python dicts with
string keys become association lists; Python exceptions that the embedded
code can raise become an `Except PyExc` result.  The external services
(`json.loads` of the standard library, the cached `intelligence_profiler`
call and the OpenAI completion call) are modelled as oracle inputs: the
embedded repository code only inspects their results, exactly as the
Python code does.
-/

namespace InterviewAICoach

/-- A Python value, covering the shapes `ai_helpers.py` manipulates:
`None`, booleans, integers, strings, lists, and dicts with string keys
(the JSON payloads the code parses all have string keys). -/
inductive PyVal where
  | none : PyVal
  | bool : Bool → PyVal
  | int : Int → PyVal
  | str : String → PyVal
  | list : List PyVal → PyVal
  | dict : List (String × PyVal) → PyVal

/-- Python truthiness, as used by `if not intelligence_response:`,
`if optimized_prompt:` and `if not json_response:` in `ai_helpers.py`:
`None` and empty containers/strings are falsy, `0` is falsy. -/
def truthy : PyVal → Bool
  | PyVal.none => false
  | PyVal.bool b => b
  | PyVal.int n => n != 0
  | PyVal.str s => s != ""
  | PyVal.list l => !l.isEmpty
  | PyVal.dict d => !d.isEmpty

/-- Lookup in a Python dict modelled as an association list
(`k in d` / `d[k]` read side): the first binding for the key, if any. -/
def dictGet? {α : Type} (d : List (String × α)) (k : String) : Option α :=
  (d.find? (fun p => p.1 == k)).map (fun p => p.2)

/-- Python dict assignment `d[k] = v`: replace the existing binding for
`k` if present, otherwise append a new one. -/
def dictInsert {α : Type} (d : List (String × α)) (k : String) (v : α) :
    List (String × α) :=
  match d with
  | [] => [(k, v)]
  | (k', v') :: rest =>
      if k' == k then (k, v) :: rest else (k', v') :: dictInsert rest k v

/-- Python `d.get(k)`: the stored value, or `None` when the key is absent. -/
def pyGet (d : List (String × PyVal)) (k : String) : PyVal :=
  match dictGet? d k with
  | some v => v
  | Option.none => PyVal.none

/-- Python `d.get(k, default)`: the stored value, or `default` when the
key is absent. -/
def pyGetD (d : List (String × PyVal)) (k : String) (default : PyVal) : PyVal :=
  match dictGet? d k with
  | some v => v
  | Option.none => default

/-- Python `s.lower()` (ASCII case folding, which covers every string the
code compares against). -/
def pyLower (s : String) : String :=
  String.mk (s.data.map Char.toLower)

/-- Python substring test `sub in s`. -/
def strContains (s sub : String) : Bool :=
  decide (sub.toList <:+: s.toList)

/-- The Python exceptions the embedded code can raise: `KeyError` (from
`timestamps[key]`), and `AttributeError` (from `.get` on a non-dict or
`.lower()` on a non-string).  `json.JSONDecodeError` is represented by
the `Option.none` result of the `jsonLoads` oracle, since the code
catches it at every parse site. -/
inductive PyExc where
  | keyError : PyExc
  | attributeError : PyExc

/-- `DIFFICULTY_LEVELS = ["junior", "Mid", "senior"]` (ai_helpers.py line 13). -/
def DIFFICULTY_LEVELS : List String := ["junior", "Mid", "senior"]

/-- `DEFAULT_DIFFICULTY = "Mid"` (ai_helpers.py line 14). -/
def DEFAULT_DIFFICULTY : String := "Mid"

/-- `CACHE_TTL = 3600` seconds (ai_helpers.py line 15). -/
def CACHE_TTL : Int := 3600

/-! ## The timed cache decorator (`timed_lru_cache`, ai_helpers.py lines 31-58)

The decorator closes over two dicts, `cache` and `timestamps`.  We model
the pair as a `WrapperState` and one invocation of the wrapper as a
state-passing function.  Timestamps are integers (seconds); the Python
`(current_time - timestamps[key]).total_seconds() < seconds` comparison
becomes `now - ts < seconds`. -/

structure WrapperState (α : Type) where
  cache : List (String × α)
  timestamps : List (String × Int)

/-- One call of the wrapper produced by `timed_lru_cache`
(ai_helpers.py lines 39-52).  `strArgs` and `strKwargs` model the
`str(args)` and `str(kwargs)` serializations; the key is their
concatenation (line 40).  The third component of the result records
whether the wrapped function `func` was invoked.  The `KeyError` case
mirrors `timestamps[key]` on line 44, reached only when the key is in
`cache` but not in `timestamps`. -/
def wrapperCall {σ α : Type} (seconds : Int) (func : σ → α)
    (strArgs strKwargs : σ → String) (now : Int)
    (st : WrapperState α) (x : σ) : Except PyExc (α × WrapperState α × Bool) :=
  let key := strArgs x ++ strKwargs x
  match dictGet? st.cache key with
  | some v =>
    match dictGet? st.timestamps key with
    | Option.none => Except.error PyExc.keyError
    | some ts =>
      if now - ts < seconds then
        Except.ok (v, st, false)
      else
        let result := func x
        Except.ok (result,
          { cache := dictInsert st.cache key result,
            timestamps := dictInsert st.timestamps key now }, true)
  | Option.none =>
    let result := func x
    Except.ok (result,
      { cache := dictInsert st.cache key result,
        timestamps := dictInsert st.timestamps key now }, true)

/-- `wrapper.clear_cache = lambda: cache.clear() and timestamps.clear()`
(ai_helpers.py line 55).  `cache.clear()` runs and returns `None`, which
is falsy, so the Python `and` short-circuits and `timestamps.clear()` is
never executed: only the value store is emptied. -/
def clear_cache {α : Type} (st : WrapperState α) : WrapperState α :=
  { st with cache := [] }

/-! ## `extract_optimized_prompt` (ai_helpers.py lines 60-84) -/

/-- `extract_optimized_prompt`.  `jsonLoads` is the oracle for the
standard library `json.loads`: `Option.none` stands for a raised
`json.JSONDecodeError`, which the code catches and turns into a `None`
return (lines 75-76).  The final `response_data.get('optimized_response')`
returns the stored value, or Python `None` when the field is absent. -/
def extract_optimized_prompt (jsonLoads : String → Option PyVal)
    (intelligence_response : PyVal) : Except PyExc PyVal :=
  match intelligence_response with
  | PyVal.dict d =>
    match dictGet? d "response" with
    | Option.none => Except.ok PyVal.none
    | some response_value =>
      match response_value with
      | PyVal.str s =>
        match jsonLoads s with
        | some (PyVal.dict response_data) =>
            Except.ok (pyGet response_data "optimized_response")
        | some _ => Except.ok PyVal.none
        | Option.none => Except.ok PyVal.none
      | PyVal.dict response_data =>
          Except.ok (pyGet response_data "optimized_response")
      | _ => Except.ok PyVal.none
  | _ => Except.ok PyVal.none

/-! ## `generate_feedback` (ai_helpers.py lines 161-235)

The function composes three external calls whose results are modelled as
an environment: the (cached) `get_intelligence_profile` result, the
`call_openai_api` JSON completion (`Option.none` when that call failed
internally and returned `None`), and the `json.loads` oracle.  Both
external wrappers catch their own exceptions and return `None`, so the
environment carries plain values. -/

structure FeedbackEnv where
  /-- The `json.loads` oracle, shared with `extract_optimized_prompt`. -/
  jsonLoads : String → Option PyVal
  /-- Result of `get_intelligence_profile(raw_prompt, job_title)`. -/
  intelligence_response : PyVal
  /-- Result of `call_openai_api(...)`: `Option.none` models Python `None`. -/
  json_response : Option String

/-- The keyword scan of the JSON-parse-failure fallback
(ai_helpers.py lines 220-224): `recommendation` starts at
`DEFAULT_DIFFICULTY` and the loop takes the first element of
`DIFFICULTY_LEVELS` that occurs in `json_response.lower()`. -/
def scan_recommendation (json_response : String) : String :=
  match DIFFICULTY_LEVELS.find? (fun level => strContains (pyLower json_response) level) with
  | some level => level
  | Option.none => DEFAULT_DIFFICULTY

/-- The JSON-success branch of the inner `try`
(ai_helpers.py lines 203-212): extract `feedback` and `recommendation`
from the parsed dict, lowercase the recommendation, and validate it
against `DIFFICULTY_LEVELS`, substituting `DEFAULT_DIFFICULTY` when the
test fails.  `.lower()` on a non-string recommendation value raises
`AttributeError`. -/
def parse_feedback (response_data : List (String × PyVal)) :
    Except PyExc (PyVal × String) :=
  let feedback := pyGetD response_data "feedback" (PyVal.str "No feedback provided.")
  match pyGetD response_data "recommendation" (PyVal.str DEFAULT_DIFFICULTY) with
  | PyVal.str r =>
    let recommendation := pyLower r
    if DIFFICULTY_LEVELS.contains recommendation then
      Except.ok (feedback, recommendation)
    else
      Except.ok (feedback, DEFAULT_DIFFICULTY)
  | _ => Except.error PyExc.attributeError

/-- The body of the outer `try` of `generate_feedback`
(ai_helpers.py lines 172-230): an `Except.error` is an exception
propagating to the outer `except Exception` handler.  Inside the inner
`try` (lines 199-212), a `json.loads` failure (`Option.none` from the
oracle) is caught by `except json.JSONDecodeError` and handled by the
fallback (lines 214-226), while `.get` on a non-dict parse result or
`.lower()` on a non-string recommendation raises `AttributeError`, which
that handler does not catch. -/
def generate_feedback_body (env : FeedbackEnv) : Except PyExc (PyVal × String) :=
  if truthy env.intelligence_response then
    match extract_optimized_prompt env.jsonLoads env.intelligence_response with
    | Except.error e => Except.error e
    | Except.ok optimized_prompt =>
      if truthy optimized_prompt then
        match env.json_response with
        | Option.none =>
            Except.ok (PyVal.str "Sorry, I couldn\x27t generate feedback at this time.",
              DEFAULT_DIFFICULTY)
        | some json_response =>
          if json_response == "" then
            Except.ok (PyVal.str "Sorry, I couldn\x27t generate feedback at this time.",
              DEFAULT_DIFFICULTY)
          else
            match env.jsonLoads json_response with
            | some (PyVal.dict response_data) => parse_feedback response_data
            | some _ => Except.error PyExc.attributeError
            | Option.none =>
                Except.ok (PyVal.str json_response, scan_recommendation json_response)
      else
        Except.ok (PyVal.str "Sorry, couldn\x27t optimize feedback prompt via DoCoreAI.",
          DEFAULT_DIFFICULTY)
  else
    Except.ok (PyVal.str "Sorry, I couldn\x27t connect to the intelligence profiler.",
      DEFAULT_DIFFICULTY)

/-- `generate_feedback`: the outer `except Exception` handler
(ai_helpers.py lines 232-235) converts any exception escaping the body
into the generic apology paired with the default difficulty. -/
def generate_feedback (env : FeedbackEnv) : PyVal × String :=
  match generate_feedback_body env with
  | Except.ok r => r
  | Except.error _ =>
      (PyVal.str "Sorry, I couldn\x27t generate feedback at this time.",
        DEFAULT_DIFFICULTY)

/-! ## The Submit Answer difficulty update (app.py lines 105-108) -/

/-- The difficulty-adjustment step of the "Submit Answer" handler:
```text
if recommendation == "easier" and st.session_state.difficulty != "easy":
    difficulty = "easy" if difficulty == "medium" else "medium"
elif recommendation == "harder" and difficulty != "hard":
    difficulty = "medium" if difficulty == "easy" else "hard"
```
-/
def submit_update_difficulty (recommendation difficulty : String) : String :=
  if recommendation == "easier" && difficulty != "easy" then
    (if difficulty == "medium" then "easy" else "medium")
  else if recommendation == "harder" && difficulty != "hard" then
    (if difficulty == "easy" then "medium" else "hard")
  else difficulty

/-! ## Concrete environments used to evaluate the code on specific inputs -/

/-- An environment in which every external step succeeds and the JSON
completion is `{"feedback": "Good answer.", "recommendation": "HARDER"}`
(braces escaped): the profiler returns a dict whose "response" dict
carries a non-empty optimized prompt, and `json.loads` parses the
completion to the two-field dict. -/
def env_harder : FeedbackEnv :=
  { jsonLoads := fun t =>
      if t == "\x7b\"feedback\": \"Good answer.\", \"recommendation\": \"HARDER\"\x7d" then
        some (PyVal.dict
          [("feedback", PyVal.str "Good answer."),
           ("recommendation", PyVal.str "HARDER")])
      else Option.none,
    intelligence_response :=
      PyVal.dict [("response", PyVal.dict [("optimized_response", PyVal.str "P")])],
    json_response :=
      some "\x7b\"feedback\": \"Good answer.\", \"recommendation\": \"HARDER\"\x7d" }

/-- An environment in which the completion is the non-JSON text
"Please ask an easier question." (so `json.loads` fails on it), after a
successful profiler call and prompt extraction. -/
def env_easier_text : FeedbackEnv :=
  { jsonLoads := fun _ => Option.none,
    intelligence_response :=
      PyVal.dict [("response", PyVal.dict [("optimized_response", PyVal.str "P")])],
    json_response := some "Please ask an easier question." }

/-! ## Helper lemmas -/

/-- The fallback keyword scan always yields one of the three entries of
`DIFFICULTY_LEVELS` (the default `"Mid"` included). -/
theorem scan_recommendation_mem (s : String) :
    scan_recommendation s ∈ DIFFICULTY_LEVELS := by
  unfold scan_recommendation
  split
  · rename_i l hl
    exact List.mem_of_find?_eq_some hl
  · decide

/-- Every successful result of the JSON-success branch carries a second
component drawn from `DIFFICULTY_LEVELS`. -/
theorem parse_feedback_ok_snd_mem (response_data : List (String × PyVal))
    (r : PyVal × String) (h : parse_feedback response_data = Except.ok r) :
    r.2 ∈ DIFFICULTY_LEVELS := by
  unfold parse_feedback at h
  split at h
  · dsimp only at h
    split at h
    · rename_i hcontains
      cases h
      exact List.mem_of_elem_eq_true hcontains
    · cases h
      exact (by decide : DEFAULT_DIFFICULTY ∈ DIFFICULTY_LEVELS)
  · cases h

/-- Every successful result of the `generate_feedback` try-body carries a
second component drawn from `DIFFICULTY_LEVELS`. -/
theorem generate_feedback_body_ok_snd_mem (env : FeedbackEnv) (r : PyVal × String)
    (h : generate_feedback_body env = Except.ok r) : r.2 ∈ DIFFICULTY_LEVELS := by
  unfold generate_feedback_body at h
  repeat' split at h
  all_goals first
    | (exact parse_feedback_ok_snd_mem _ _ h)
    | (cases h)
  all_goals try exact (by decide : DEFAULT_DIFFICULTY ∈ DIFFICULTY_LEVELS)
  exact scan_recommendation_mem _

/-- The second component returned by `generate_feedback` is always one of
`DIFFICULTY_LEVELS`. -/
theorem generate_feedback_snd_mem (env : FeedbackEnv) :
    (generate_feedback env).2 ∈ DIFFICULTY_LEVELS := by
  unfold generate_feedback
  split
  · rename_i r hr
    exact generate_feedback_body_ok_snd_mem env r hr
  · decide

/-- A string drawn from `DIFFICULTY_LEVELS` is none of the recommendation
keywords the Submit Answer handler tests for, and therefore leaves the
session difficulty unchanged. -/
theorem mem_levels_not_adjust (r : String) (h : r ∈ DIFFICULTY_LEVELS) :
    r ≠ "easier" ∧ r ≠ "same" ∧ r ≠ "harder" ∧
    ∀ d, submit_update_difficulty r d = d := by
  simp only [DIFFICULTY_LEVELS, List.mem_cons, List.not_mem_nil, or_false] at h
  rcases h with h | h | h <;> subst h <;>
    exact ⟨by decide, by decide, by decide, fun d => rfl⟩

/-! ## Claim theorems -/

/-- C3: on every return path of `generate_feedback` the second component
of the returned pair is an element of `DIFFICULTY_LEVELS`
(`["junior", "Mid", "senior"]`) and never `"easier"`, `"same"` or
`"harder"`; consequently the difficulty-adjustment step of the Submit
Answer handler leaves the session difficulty unchanged. -/
theorem C3_recommendation_never_adjusts_difficulty (env : FeedbackEnv) :
    (generate_feedback env).2 ∈ DIFFICULTY_LEVELS ∧
    (generate_feedback env).2 ≠ "easier" ∧
    (generate_feedback env).2 ≠ "same" ∧
    (generate_feedback env).2 ≠ "harder" ∧
    ∀ d, submit_update_difficulty (generate_feedback env).2 d = d := by
  have hm := generate_feedback_snd_mem env
  exact ⟨hm, mem_levels_not_adjust _ hm⟩

/-- C1: evaluated on a completion that parses to
`{"feedback": "Good answer.", "recommendation": "HARDER"}` (braces
escaped), `generate_feedback` lowercases `"HARDER"` to `"harder"` but
then validates it against `DIFFICULTY_LEVELS = ["junior", "Mid",
"senior"]` rather than the enum `{easier, same, harder}` announced in
its own prompts, so the recommendation comes back as the default
`"Mid"`, not `"harder"` as the claim states. -/
theorem C1_harder_recommendation_coerced_to_default :
    generate_feedback env_harder = (PyVal.str "Good answer.", "Mid") ∧
    pyLower "HARDER" = "harder" ∧
    DIFFICULTY_LEVELS.contains "harder" = false ∧
    ("Mid" : String) ≠ "harder" :=
  ⟨rfl, rfl, rfl, by decide⟩

/-- C2: evaluated on the non-JSON completion
"Please ask an easier question.", which contains the substring
"easier", the fallback scan of `generate_feedback` looks for the
keywords of `DIFFICULTY_LEVELS = ["junior", "Mid", "senior"]` (not the
level keywords `easier`/`same`/`harder`), finds none, and returns the
default `"Mid"`, not `"easier"` as the claim states. -/
theorem C2_easier_text_not_recovered :
    strContains (pyLower "Please ask an easier question.") "easier" = true ∧
    generate_feedback env_easier_text =
      (PyVal.str "Please ask an easier question.", "Mid") ∧
    ("Mid" : String) ≠ "easier" :=
  ⟨rfl, rfl, by decide⟩

/-- C4: `clear_cache` empties the value store but not the timestamp
store: `cache.clear() and timestamps.clear()` short-circuits on the
falsy `None` returned by `cache.clear()`, so after clearing a state
whose timestamp store is non-empty, the timestamp store is still
non-empty, contradicting the claim that both stores are emptied. -/
theorem C4_clear_cache_leaves_timestamps :
    (clear_cache ⟨[("k", (1 : Int))], [("k", 5)]⟩).cache = [] ∧
    (clear_cache ⟨[("k", (1 : Int))], [("k", 5)]⟩).timestamps = [("k", 5)] ∧
    (clear_cache ⟨[("k", (1 : Int))], [("k", 5)]⟩).timestamps ≠ [] :=
  ⟨rfl, rfl, by decide⟩

/-- C5: one call of the `timed_lru_cache` wrapper computes its key as the
concatenation of the stringified positional and keyword arguments; when
an entry for that key exists whose age `now - ts` is strictly below the
TTL, the cached value is returned, the state is untouched and the wrapped
function is not invoked (third component `false`); when no entry exists,
or the entry's age is at least the TTL, the wrapped function is invoked
and its result and the current timestamp are stored under the key. -/
theorem C5_timed_cache_contract {σ α : Type} (seconds : Int) (func : σ → α)
    (strArgs strKwargs : σ → String) (now : Int) (st : WrapperState α) (x : σ) :
    (∀ v ts, dictGet? st.cache (strArgs x ++ strKwargs x) = some v →
       dictGet? st.timestamps (strArgs x ++ strKwargs x) = some ts →
       now - ts < seconds →
       wrapperCall seconds func strArgs strKwargs now st x =
         Except.ok (v, st, false)) ∧
    (dictGet? st.cache (strArgs x ++ strKwargs x) = Option.none →
       wrapperCall seconds func strArgs strKwargs now st x =
         Except.ok (func x,
           { cache := dictInsert st.cache (strArgs x ++ strKwargs x) (func x),
             timestamps :=
               dictInsert st.timestamps (strArgs x ++ strKwargs x) now }, true)) ∧
    (∀ v ts, dictGet? st.cache (strArgs x ++ strKwargs x) = some v →
       dictGet? st.timestamps (strArgs x ++ strKwargs x) = some ts →
       seconds ≤ now - ts →
       wrapperCall seconds func strArgs strKwargs now st x =
         Except.ok (func x,
           { cache := dictInsert st.cache (strArgs x ++ strKwargs x) (func x),
             timestamps :=
               dictInsert st.timestamps (strArgs x ++ strKwargs x) now }, true)) := by
  refine ⟨?_, ?_, ?_⟩
  · intro v ts hc ht hlt
    unfold wrapperCall
    simp only [hc, ht]
    rw [if_pos hlt]
  · intro hc
    unfold wrapperCall
    simp only [hc]
  · intro v ts hc ht hge
    unfold wrapperCall
    simp only [hc, ht]
    rw [if_neg (not_lt.mpr hge)]

/-- Witness for C5: a concrete hit within the TTL window returns the
cached value without invoking the wrapped function. -/
theorem C5_timed_cache_contract_witness :
    wrapperCall 3600 (fun n : Nat => n + 1) (fun _ => "(0,)") (fun _ => "\x7b\x7d")
      105 ⟨[("(0,)\x7b\x7d", 7)], [("(0,)\x7b\x7d", 100)]⟩ 0 =
      Except.ok (7, ⟨[("(0,)\x7b\x7d", 7)], [("(0,)\x7b\x7d", 100)]⟩, false) :=
  (C5_timed_cache_contract 3600 (fun n : Nat => n + 1) (fun _ => "(0,)")
    (fun _ => "\x7b\x7d") 105 ⟨[("(0,)\x7b\x7d", 7)], [("(0,)\x7b\x7d", 100)]⟩ 0).1
    7 100 rfl rfl (by decide)

/-- C6: `extract_optimized_prompt` returns the "optimized_response"
field when its input is a dict whose "response" value is a dict or a
JSON string decoding to a dict, and returns `None` when the input is
not a dict, lacks the "response" key, the string fails to parse, the
parsed value is not a dict, or the "optimized_response" field is
absent; in particular the two quoted examples evaluate as the spec
says. -/
theorem C6_extract_optimized_prompt_contract (jsonLoads : String → Option PyVal) :
    (∀ d rd, dictGet? d "response" = some (PyVal.dict rd) →
       extract_optimized_prompt jsonLoads (PyVal.dict d) =
         Except.ok (pyGet rd "optimized_response")) ∧
    (∀ d s rd, dictGet? d "response" = some (PyVal.str s) →
       jsonLoads s = some (PyVal.dict rd) →
       extract_optimized_prompt jsonLoads (PyVal.dict d) =
         Except.ok (pyGet rd "optimized_response")) ∧
    (∀ r, (∀ d, r ≠ PyVal.dict d) →
       extract_optimized_prompt jsonLoads r = Except.ok PyVal.none) ∧
    (∀ d, dictGet? d "response" = Option.none →
       extract_optimized_prompt jsonLoads (PyVal.dict d) = Except.ok PyVal.none) ∧
    (∀ d s, dictGet? d "response" = some (PyVal.str s) →
       jsonLoads s = Option.none →
       extract_optimized_prompt jsonLoads (PyVal.dict d) = Except.ok PyVal.none) ∧
    (∀ d s p, dictGet? d "response" = some (PyVal.str s) → jsonLoads s = some p →
       (∀ rd, p ≠ PyVal.dict rd) →
       extract_optimized_prompt jsonLoads (PyVal.dict d) = Except.ok PyVal.none) ∧
    (∀ rd, dictGet? rd "optimized_response" = Option.none →
       extract_optimized_prompt jsonLoads
           (PyVal.dict [("response", PyVal.dict rd)]) = Except.ok PyVal.none) ∧
    extract_optimized_prompt jsonLoads
        (PyVal.dict [("response",
          PyVal.dict [("optimized_response", PyVal.str "X")])]) =
      Except.ok (PyVal.str "X") ∧
    extract_optimized_prompt jsonLoads (PyVal.dict [("nope", PyVal.int 1)]) =
      Except.ok PyVal.none := by
  have h1 : ∀ d rd, dictGet? d "response" = some (PyVal.dict rd) →
      extract_optimized_prompt jsonLoads (PyVal.dict d) =
        Except.ok (pyGet rd "optimized_response") := by
    intro d rd h
    unfold extract_optimized_prompt
    dsimp only
    rw [h]
  refine ⟨h1, ?_, ?_, ?_, ?_, ?_, ?_, rfl, rfl⟩
  · intro d s rd h hj
    unfold extract_optimized_prompt
    dsimp only
    rw [h]
    dsimp only
    rw [hj]
  · intro r hr
    cases r with
    | dict d => exact absurd rfl (hr d)
    | none => rfl
    | bool b => rfl
    | int n => rfl
    | str s => rfl
    | list l => rfl
  · intro d h
    unfold extract_optimized_prompt
    dsimp only
    rw [h]
  · intro d s h hj
    unfold extract_optimized_prompt
    dsimp only
    rw [h]
    dsimp only
    rw [hj]
  · intro d s p h hj hp
    unfold extract_optimized_prompt
    dsimp only
    rw [h]
    dsimp only
    rw [hj]
    cases p with
    | dict rd => exact absurd rfl (hp rd)
    | none => rfl
    | bool b => rfl
    | int n => rfl
    | str s => rfl
    | list l => rfl
  · intro rd h
    rw [h1 [("response", PyVal.dict rd)] rd rfl]
    unfold pyGet
    rw [h]

/-- Witness for C6: the dict-shaped "response" case at a concrete input. -/
theorem C6_extract_optimized_prompt_contract_witness :
    extract_optimized_prompt (fun _ => Option.none)
      (PyVal.dict [("response",
        PyVal.dict [("optimized_response", PyVal.str "X")])]) =
      Except.ok (PyVal.str "X") :=
  (C6_extract_optimized_prompt_contract (fun _ => Option.none)).1
    [("response", PyVal.dict [("optimized_response", PyVal.str "X")])]
    [("optimized_response", PyVal.str "X")] rfl

/-- C7: `generate_feedback` never raises: an exception escaping the
try-body is absorbed by the outer handler into the generic apology
paired with the default difficulty, and each failure path (falsy
profiler response, falsy extracted prompt, null completion) returns its
specific apology string paired with the default difficulty; the second
component is always a difficulty label from `DIFFICULTY_LEVELS`. -/
theorem C7_generate_feedback_never_raises (env : FeedbackEnv) :
    (∀ e, generate_feedback_body env = Except.error e →
       generate_feedback env =
         (PyVal.str "Sorry, I couldn\x27t generate feedback at this time.",
           DEFAULT_DIFFICULTY)) ∧
    (truthy env.intelligence_response = false →
       generate_feedback env =
         (PyVal.str "Sorry, I couldn\x27t connect to the intelligence profiler.",
           DEFAULT_DIFFICULTY)) ∧
    (∀ op, truthy env.intelligence_response = true →
       extract_optimized_prompt env.jsonLoads env.intelligence_response =
         Except.ok op →
       truthy op = false →
       generate_feedback env =
         (PyVal.str "Sorry, couldn\x27t optimize feedback prompt via DoCoreAI.",
           DEFAULT_DIFFICULTY)) ∧
    (∀ op, truthy env.intelligence_response = true →
       extract_optimized_prompt env.jsonLoads env.intelligence_response =
         Except.ok op →
       truthy op = true → env.json_response = Option.none →
       generate_feedback env =
         (PyVal.str "Sorry, I couldn\x27t generate feedback at this time.",
           DEFAULT_DIFFICULTY)) ∧
    (generate_feedback env).2 ∈ DIFFICULTY_LEVELS := by
  refine ⟨?_, ?_, ?_, ?_, generate_feedback_snd_mem env⟩
  · intro e he
    unfold generate_feedback
    rw [he]
  · intro h
    unfold generate_feedback generate_feedback_body
    rw [h]
    simp only [Bool.false_eq_true, if_false]
  · intro op hT hE hop
    simp [generate_feedback, generate_feedback_body, hT, hE, hop]
  · intro op hT hE hop hjr
    simp [generate_feedback, generate_feedback_body, hT, hE, hop, hjr]

/-- Witness for C7: with a falsy (None) profiler response,
`generate_feedback` returns the profiler apology and the default level. -/
theorem C7_generate_feedback_never_raises_witness :
    generate_feedback
      { jsonLoads := fun _ => Option.none,
        intelligence_response := PyVal.none,
        json_response := Option.none } =
      (PyVal.str "Sorry, I couldn\x27t connect to the intelligence profiler.",
        DEFAULT_DIFFICULTY) :=
  (C7_generate_feedback_never_raises
    { jsonLoads := fun _ => Option.none,
      intelligence_response := PyVal.none,
      json_response := Option.none }).2.1 rfl

/-- C8: the Submit Answer difficulty update moves one notch per
recommendation and clamps at the enum boundaries: "harder" sends
"medium" to "hard" and leaves "hard" at "hard"; "easier" sends "medium"
to "easy" and leaves "easy" at "easy"; any other recommendation leaves
the difficulty unchanged. -/
theorem C8_submit_difficulty_one_notch_clamped :
    submit_update_difficulty "harder" "medium" = "hard" ∧
    submit_update_difficulty "harder" "hard" = "hard" ∧
    submit_update_difficulty "harder" "easy" = "medium" ∧
    submit_update_difficulty "easier" "medium" = "easy" ∧
    submit_update_difficulty "easier" "easy" = "easy" ∧
    submit_update_difficulty "easier" "hard" = "medium" ∧
    ∀ r d, r ≠ "easier" → r ≠ "harder" →
      submit_update_difficulty r d = d := by
  refine ⟨rfl, rfl, rfl, rfl, rfl, rfl, ?_⟩
  intro r d h1 h2
  unfold submit_update_difficulty
  rw [if_neg, if_neg]
  · simp only [Bool.and_eq_true, beq_iff_eq, bne_iff_ne, not_and]
    intro hr
    exact absurd hr h2
  · simp only [Bool.and_eq_true, beq_iff_eq, bne_iff_ne, not_and]
    intro hr
    exact absurd hr h1

/-- Witness for C8: the recommendation "same" leaves "medium" unchanged. -/
theorem C8_submit_difficulty_one_notch_clamped_witness :
    submit_update_difficulty "same" "medium" = "medium" :=
  C8_submit_difficulty_one_notch_clamped.2.2.2.2.2.2 "same" "medium"
    (by decide) (by decide)

/-- C9: after `clear_cache`, a call whose arguments were previously
cached invokes the wrapped function again: the hit test requires the
key in the value store, which is now empty — even though `clear_cache`
left the timestamp store untouched. -/
theorem C9_clear_cache_forces_recompute {σ α : Type} (seconds : Int)
    (func : σ → α) (strArgs strKwargs : σ → String) (now : Int)
    (st : WrapperState α) (x : σ) (v : α)
    (_hprev : dictGet? st.cache (strArgs x ++ strKwargs x) = some v) :
    (clear_cache st).timestamps = st.timestamps ∧
    wrapperCall seconds func strArgs strKwargs now (clear_cache st) x =
      Except.ok (func x,
        { cache := [((strArgs x ++ strKwargs x), func x)],
          timestamps :=
            dictInsert st.timestamps (strArgs x ++ strKwargs x) now }, true) :=
  ⟨rfl, rfl⟩

/-- Witness for C9: clearing a concrete one-entry cache makes the next
identical call recompute. -/
theorem C9_clear_cache_forces_recompute_witness :
    wrapperCall 3600 (fun n : Nat => n + 1) (fun _ => "(0,)") (fun _ => "\x7b\x7d")
      200 (clear_cache ⟨[("(0,)\x7b\x7d", 7)], [("(0,)\x7b\x7d", 100)]⟩) 0 =
      Except.ok (1, ⟨[("(0,)\x7b\x7d", 1)], [("(0,)\x7b\x7d", 200)]⟩, true) :=
  (C9_clear_cache_forces_recompute 3600 (fun n : Nat => n + 1) (fun _ => "(0,)")
    (fun _ => "\x7b\x7d") 200 ⟨[("(0,)\x7b\x7d", 7)], [("(0,)\x7b\x7d", 100)]⟩ 0
    7 rfl).2

/-- C10: `extract_optimized_prompt` is total: for every input value and
every behaviour of the `json.loads` oracle it produces a value (possibly
`None`) and never lets an exception escape. -/
theorem C10_extract_optimized_prompt_total (jsonLoads : String → Option PyVal)
    (r : PyVal) : ∃ v, extract_optimized_prompt jsonLoads r = Except.ok v := by
  unfold extract_optimized_prompt
  repeat' split
  all_goals exact ⟨_, rfl⟩

end InterviewAICoach
